import Mathlib

/-!
Verification development for the expression calculator in `src/calculator.py`.

The program's public entry point is `evaluate(expr: str) -> float`, which
parses `expr` with Python's `ast.parse(expr, mode="eval")` and evaluates the
resulting tree with `_eval`, raising `CalculatorError` for rejected input and
letting any other Python exception propagate.

The embedding below models:
 * Python `float` values as exact rationals plus the IEEE special values
   `inf`, `-inf`, `nan` (`PyFloat`).  Finite arithmetic is modelled exactly
   (no rounding); conversion of literals to `float` models overflow to
   infinity at the `2^1024` boundary.  This idealisation is exact on every
   input appearing in a theorem of this file.
 * Python exceptions (`PyExc`): `CalculatorError` (with a constructor per
   `raise` site of the source, `CalcKind`) and the raw exceptions
   `ValueError`, `TypeError`, `ZeroDivisionError`, `OverflowError` that the
   mathematical primitives can raise.  An exception other than `.calc _`
   in a final result is one that escapes `evaluate` uncaught.
 * The CPython tokenizer and eval-mode expression parser, restricted to the
   grammar fragment the calculator can receive (numbers incl. hex/underscore
   literals, names, `True`/`False`/`None`, `lambda`, strings, arithmetic,
   comparison, shift and bitwise operators, calls, attribute access,
   subscripts, tuples and lists).  Fuel-based recursion keeps every
   definition structural and kernel-computable.
 * The transcendental library functions (`math.exp`, `math.log`, ...) via an
   abstract parameter structure `RealLib`: their values on valid inputs are
   uninterpreted, while their domain/error behaviour (the part the claims
   are about) is modelled explicitly.
-/

set_option maxRecDepth 4096
set_option maxHeartbeats 1600000

-- Batteries marks the `Rat` arithmetic operations `[irreducible]`, which
-- blocks elaborator-side evaluation of the model on concrete inputs; restore
-- the default reducibility for this file.
attribute [local semireducible] Rat.mul Rat.add Rat.sub Rat.inv Rat.ofScientific

namespace Calculator

/-- Decidable equality of `Except` results, used to evaluate the model on
concrete inputs. -/
instance {ε α : Type} [DecidableEq ε] [DecidableEq α] : DecidableEq (Except ε α)
  | .ok x, .ok y =>
    if h : x = y then .isTrue (by rw [h])
    else .isFalse (fun hc => h (by injection hc))
  | .ok _, .error _ => .isFalse (fun hc => Except.noConfusion hc)
  | .error _, .ok _ => .isFalse (fun hc => Except.noConfusion hc)
  | .error x, .error y =>
    if h : x = y then .isTrue (by rw [h])
    else .isFalse (fun hc => h (by injection hc))

/-- Model of a Python `float`: an exact rational for finite values, plus the
IEEE special values.  Finite values are not rounded; this is exact for every
concrete input used in the theorems below. -/
inductive PyFloat where
  | finite (q : ℚ)
  | inf
  | neginf
  | nan
deriving DecidableEq

/-- Smallest positive rational that overflows a `float64` (`2^1024`);
`float(q)` for `|q| ≥ 2^1024` gives an infinity (for literals) or raises
`OverflowError` (for `int` → `float` conversion). -/
def DBL_OVERFLOW : ℚ := ((2 ^ 1024 : ℕ) : ℚ)

/-- Conversion of an exact rational literal value to a Python `float`,
as performed on `float` literals by the CPython tokenizer (overflow gives
an infinity silently, e.g. `1e400 == inf`). -/
def floatOfRat (q : ℚ) : PyFloat :=
  if DBL_OVERFLOW ≤ q then .inf
  else if q ≤ -DBL_OVERFLOW then .neginf
  else .finite q

/-- One constructor per distinct `raise CalculatorError(...)` site in
`src/calculator.py` (plus `caughtValue`, the re-raise of a caught
`ValueError` message at line 103). -/
inductive CalcKind where
  /-- "Invalid expression" — `SyntaxError` caught in `evaluate` (line 114). -/
  | invalidExpression
  /-- "Only numbers are allowed" — non-numeric `ast.Constant` (line 67). -/
  | onlyNumbers
  /-- "Unknown name: ..." — identifier not in `_CONSTS` (line 72). -/
  | unknownName (n : String)
  /-- "Operator not allowed: ..." — binary operator not in `_BIN_OPS` (line 77). -/
  | operatorNotAllowed (op : String)
  /-- "Unary operator not allowed: ..." — unary op not in `_UNARY_OPS` (line 88). -/
  | unaryNotAllowed (op : String)
  /-- "Division by zero" — `ZeroDivisionError` caught in the BinOp branch (line 83). -/
  | divisionByZero
  /-- "Only simple function calls are allowed..." — call target not a name (line 93). -/
  | notSimpleCall
  /-- "Unknown function: ..." — call target not in `_FUNCS` (line 96). -/
  | unknownFunction (n : String)
  /-- "Keyword arguments are not supported" (line 98). -/
  | keywordArgs
  /-- `CalculatorError(str(e))` for a `ValueError` raised by a function (line 103). -/
  | caughtValue (msg : String)
  /-- "Bad arguments for ...()" — `TypeError` caught in the call branch (line 105). -/
  | badArguments (n : String)
  /-- "Expression not supported: ..." — AST node of unhandled type (line 107). -/
  | notSupported (node : String)
deriving DecidableEq

/-- Python exceptions that can arise during evaluation.  `.calc k` is a
`CalculatorError` (the documented, recoverable error contract); the other
constructors are raw exceptions that `evaluate` does not catch, so their
appearance in a final result is an uncaught escape. -/
inductive PyExc where
  | calc (k : CalcKind)
  | valueError (msg : String)
  | typeError (msg : String)
  | zeroDivisionError
  | overflowError
  | recursionError
deriving DecidableEq

/-- Result of a Python binary arithmetic operator: a float, or a complex
number (`**` with negative base and non-integer exponent returns `complex`). -/
inductive PyNum where
  | real (f : PyFloat)
  | complexv
deriving DecidableEq

/-- Computable floor of a rational (`⌊q⌋`), via floor-division of the
numerator by the (positive) denominator. -/
def ratFloor (q : ℚ) : ℤ := Int.fdiv q.num q.den

/-- Computable ceiling of a rational (`⌈q⌉`). -/
def ratCeil (q : ℚ) : ℤ := -ratFloor (-q)

/-- `operator.neg` on floats. -/
def pyNeg : PyFloat → PyFloat
  | .finite q => .finite (-q)
  | .inf => .neginf
  | .neginf => .inf
  | .nan => .nan

/-- `operator.pos` on floats (identity). -/
def pyPos : PyFloat → PyFloat := fun x => x

/-- Python builtin `abs` on floats. -/
def pyAbs : PyFloat → PyFloat
  | .finite q => .finite |q|
  | .inf => .inf
  | .neginf => .inf
  | .nan => .nan

/-- `operator.add` on floats. -/
def pyAdd : PyFloat → PyFloat → PyFloat
  | .nan, _ => .nan
  | _, .nan => .nan
  | .finite a, .finite b => .finite (a + b)
  | .inf, .neginf => .nan
  | .neginf, .inf => .nan
  | .inf, _ => .inf
  | _, .inf => .inf
  | .neginf, _ => .neginf
  | _, .neginf => .neginf

/-- `operator.sub` on floats (`a - b = a + (-b)`; in particular
`inf - inf = nan`). -/
def pySub (a b : PyFloat) : PyFloat := pyAdd a (pyNeg b)

/-- `operator.mul` on floats. -/
def pyMul : PyFloat → PyFloat → PyFloat
  | .nan, _ => .nan
  | _, .nan => .nan
  | .finite a, .finite b => .finite (a * b)
  | .inf, .inf => .inf
  | .inf, .neginf => .neginf
  | .neginf, .inf => .neginf
  | .neginf, .neginf => .inf
  | .inf, .finite b => if b = 0 then .nan else if 0 < b then .inf else .neginf
  | .finite b, .inf => if b = 0 then .nan else if 0 < b then .inf else .neginf
  | .neginf, .finite b => if b = 0 then .nan else if 0 < b then .neginf else .inf
  | .finite b, .neginf => if b = 0 then .nan else if 0 < b then .neginf else .inf

/-- `operator.truediv` on floats: raises `ZeroDivisionError` when the divisor
is exactly zero (Python floats raise rather than produce `inf`). -/
def pyDiv (a b : PyFloat) : Except PyExc PyFloat :=
  if b = .finite 0 then .error .zeroDivisionError
  else .ok (match a, b with
    | .nan, _ => .nan
    | _, .nan => .nan
    | .finite x, .finite y => .finite (x / y)
    | .finite _, .inf => .finite 0
    | .finite _, .neginf => .finite 0
    | .inf, .finite y => if 0 ≤ y then .inf else .neginf
    | .neginf, .finite y => if 0 ≤ y then .neginf else .inf
    | .inf, _ => .nan
    | .neginf, _ => .nan)

/-- `operator.mod` on floats: raises `ZeroDivisionError` for a zero divisor;
otherwise the result takes the sign of the divisor (`x - y*⌊x/y⌋`). -/
def pyMod (a b : PyFloat) : Except PyExc PyFloat :=
  if b = .finite 0 then .error .zeroDivisionError
  else .ok (match a, b with
    | .nan, _ => .nan
    | _, .nan => .nan
    | .finite x, .finite y => .finite (x - y * (ratFloor (x / y) : ℤ))
    | .finite x, .inf => if 0 ≤ x then .finite x else .inf
    | .finite x, .neginf => if x ≤ 0 then .finite x else .neginf
    | .inf, _ => .nan
    | .neginf, _ => .nan)

/-- Abstract model of the transcendental `math`-library primitives.  The
numeric value of a transcendental function on a valid finite input is not
computable exactly, so it is an uninterpreted function of this structure;
the domain-error behaviour — the part the specification constrains — is
modelled explicitly in the wrappers below. -/
structure RealLib where
  /-- Value of `math.exp x` when it does not overflow. -/
  exp : ℚ → ℚ
  /-- Whether `math.exp x` overflows (raises `OverflowError`); true exactly
  for `x > log(DBL_MAX) ≈ 709.78`. -/
  expOv : ℚ → Bool
  /-- Value of `math.log x` for `x > 0`. -/
  ln : ℚ → ℚ
  /-- Value of `math.log10 x` for `x > 0`. -/
  log10 : ℚ → ℚ
  /-- Value of `math.sqrt x` for `x ≥ 0`. -/
  sqrt : ℚ → ℚ
  sin : ℚ → ℚ
  cos : ℚ → ℚ
  tan : ℚ → ℚ
  /-- Value of `math.asin x` for `|x| ≤ 1`. -/
  asin : ℚ → ℚ
  /-- Value of `math.acos x` for `|x| ≤ 1`. -/
  acos : ℚ → ℚ
  atan : ℚ → ℚ
  /-- `math.atan inf` (i.e. `π/2` as a float). -/
  atanInf : ℚ
  /-- Value of `x ** y` for `x > 0` finite and `y` finite non-integer. -/
  powr : ℚ → ℚ → ℚ

/-- A concrete, arbitrary instantiation of the transcendental library, used
to evaluate the model on closed inputs whose result does not depend on the
library values. -/
def mathLib0 : RealLib where
  exp := fun _ => 0
  expOv := fun q => decide ((710 : ℚ) ≤ q)
  ln := fun _ => 0
  log10 := fun _ => 0
  sqrt := fun _ => 0
  sin := fun _ => 0
  cos := fun _ => 0
  tan := fun _ => 0
  asin := fun _ => 0
  acos := fun _ => 0
  atan := fun _ => 0
  atanInf := 0
  powr := fun _ _ => 0

/-- `operator.pow` on floats (Python `**`).  `x ** 0 = 1` always; `1 ** y = 1`
always; `0.0 ** negative` raises `ZeroDivisionError`; a negative finite base
with a non-integer finite exponent yields a `complex` result (which the
caller's `float(...)` cannot convert).  Overflow of huge integer powers to
`OverflowError` is not modelled (no claim exercises it). -/
def pyPow (R : RealLib) (a b : PyFloat) : Except PyExc PyNum :=
  if b = .finite 0 then .ok (.real (.finite 1))
  else if a = .finite 1 then .ok (.real (.finite 1))
  else match a, b with
    | .nan, _ => .ok (.real .nan)
    | _, .nan => .ok (.real .nan)
    | .inf, .inf => .ok (.real .inf)
    | .neginf, .inf => .ok (.real .inf)
    | .finite x, .inf =>
        .ok (.real (if x = -1 then .finite 1 else if 1 < |x| then .inf else .finite 0))
    | .inf, .neginf => .ok (.real (.finite 0))
    | .neginf, .neginf => .ok (.real (.finite 0))
    | .finite x, .neginf =>
        .ok (.real (if x = -1 then .finite 1 else if 1 < |x| then .finite 0 else .inf))
    | .inf, .finite y => .ok (.real (if 0 < y then .inf else .finite 0))
    | .neginf, .finite y =>
        .ok (.real (if 0 < y then
            (if y.den = 1 ∧ y.num % 2 ≠ 0 then .neginf else .inf)
          else .finite 0))
    | .finite x, .finite y =>
        if x = 0 then
          if y < 0 then .error .zeroDivisionError else .ok (.real (.finite 0))
        else if y.den = 1 then .ok (.real (.finite (x ^ y.num)))
        else if x < 0 then .ok .complexv
        else .ok (.real (.finite (R.powr x y)))

/-- Round-half-to-even of an exact rational, the behaviour of the Python
builtin `round` with one argument. -/
def roundHalfEven (q : ℚ) : ℤ :=
  let f := ratFloor q
  let r := q - f
  if r < 1/2 then f
  else if 1/2 < r then f + 1
  else if f % 2 = 0 then f else f + 1

/-- Python builtin `round(x)` on a float: ties-to-even integer; `round(nan)`
raises `ValueError`, `round(±inf)` raises `OverflowError` (the latter is not
caught by the calculator). -/
def pyRound : PyFloat → Except PyExc PyFloat
  | .finite q => .ok (.finite (roundHalfEven q))
  | .nan => .error (.valueError "cannot convert float NaN to integer")
  | .inf => .error .overflowError
  | .neginf => .error .overflowError

/-- `math.floor` on a float (returns an integer; `nan` raises `ValueError`,
`±inf` raises `OverflowError`). -/
def mathFloor : PyFloat → Except PyExc PyFloat
  | .finite q => .ok (.finite (ratFloor q))
  | .nan => .error (.valueError "cannot convert float NaN to integer")
  | .inf => .error .overflowError
  | .neginf => .error .overflowError

/-- `math.ceil` on a float. -/
def mathCeil : PyFloat → Except PyExc PyFloat
  | .finite q => .ok (.finite (ratCeil q))
  | .nan => .error (.valueError "cannot convert float NaN to integer")
  | .inf => .error .overflowError
  | .neginf => .error .overflowError

/-- `math.sqrt`: `ValueError` (math domain error) for negative input. -/
def mathSqrt (R : RealLib) : PyFloat → Except PyExc PyFloat
  | .finite q =>
      if q < 0 then .error (.valueError "math domain error")
      else .ok (.finite (R.sqrt q))
  | .inf => .ok .inf
  | .neginf => .error (.valueError "math domain error")
  | .nan => .ok .nan

/-- `math.exp`: overflows to `OverflowError` (math range error) for large
arguments; that exception is not caught by the calculator. -/
def mathExp (R : RealLib) : PyFloat → Except PyExc PyFloat
  | .finite q =>
      if R.expOv q then .error .overflowError else .ok (.finite (R.exp q))
  | .inf => .ok .inf
  | .neginf => .ok (.finite 0)
  | .nan => .ok .nan

/-- `math.log` with one argument (natural logarithm): `ValueError` for
`x ≤ 0` (including `-inf`). -/
def mathLog (R : RealLib) : PyFloat → Except PyExc PyFloat
  | .finite q =>
      if q ≤ 0 then .error (.valueError "math domain error")
      else .ok (.finite (R.ln q))
  | .inf => .ok .inf
  | .neginf => .error (.valueError "math domain error")
  | .nan => .ok .nan

/-- `math.log(x, base)`: CPython computes `log(x)/log(base)` — so `x` is
domain-checked first, then `base`, and a base of exactly `1` makes the
divisor `log(base)` zero, raising an (uncaught) `ZeroDivisionError`.  The
final division is on abstract values and cannot itself raise here. -/
def mathLog2 (R : RealLib) (x b : PyFloat) : Except PyExc PyFloat := do
  let lx ← mathLog R x
  let lb ← mathLog R b
  if b = .finite 1 then .error .zeroDivisionError
  else
    .ok (match lx, lb with
      | .nan, _ => .nan
      | _, .nan => .nan
      | .finite n, .finite d => .finite (n / d)
      | .finite _, .inf => .finite 0
      | .inf, .finite _ => .inf
      | .inf, .inf => .nan
      | x2, _ => x2)

/-- `math.log10`: `ValueError` for `x ≤ 0`. -/
def mathLog10 (R : RealLib) : PyFloat → Except PyExc PyFloat
  | .finite q =>
      if q ≤ 0 then .error (.valueError "math domain error")
      else .ok (.finite (R.log10 q))
  | .inf => .ok .inf
  | .neginf => .error (.valueError "math domain error")
  | .nan => .ok .nan

/-- `math.sin` / `math.cos` / `math.tan` share their special-value shape:
defined on finite inputs, `ValueError` on infinities, `nan` on `nan`. -/
def mathTrig (g : ℚ → ℚ) : PyFloat → Except PyExc PyFloat
  | .finite q => .ok (.finite (g q))
  | .inf => .error (.valueError "math domain error")
  | .neginf => .error (.valueError "math domain error")
  | .nan => .ok .nan

/-- `math.asin` / `math.acos`: domain `[-1, 1]`. -/
def mathArc (g : ℚ → ℚ) : PyFloat → Except PyExc PyFloat
  | .finite q =>
      if 1 < |q| then .error (.valueError "math domain error")
      else .ok (.finite (g q))
  | .inf => .error (.valueError "math domain error")
  | .neginf => .error (.valueError "math domain error")
  | .nan => .ok .nan

/-- `math.atan`: total on all floats. -/
def mathAtan (R : RealLib) : PyFloat → PyFloat
  | .finite q => .finite (R.atan q)
  | .inf => .finite R.atanInf
  | .neginf => .finite (-R.atanInf)
  | .nan => .nan

/-- The names registered in the `_FUNCS` table (line 29-45 of the source). -/
def FUNC_NAMES : List String :=
  ["abs", "round", "sqrt", "sin", "cos", "tan", "asin", "acos", "atan",
   "log", "log10", "ln", "exp", "floor", "ceil"]

/-- `name in _FUNCS` (dictionary membership test of line 95). -/
def isFunc (n : String) : Bool := FUNC_NAMES.contains n

/-- Application of a `_FUNCS` entry to the (already evaluated, hence float)
argument list: `_FUNCS[name](*args)` of line 101.  A call with an argument
count the Python function does not accept raises `TypeError`; `round` with a
second float argument also raises `TypeError` (its `ndigits` must be an
`int`, and every evaluated argument here is a `float`). -/
def applyFunc (R : RealLib) : String → List PyFloat → Except PyExc PyFloat
  | "abs", [x] => .ok (pyAbs x)
  | "round", [x] => pyRound x
  | "sqrt", [x] => mathSqrt R x
  | "sin", [x] => mathTrig R.sin x
  | "cos", [x] => mathTrig R.cos x
  | "tan", [x] => mathTrig R.tan x
  | "asin", [x] => mathArc R.asin x
  | "acos", [x] => mathArc R.acos x
  | "atan", [x] => .ok (mathAtan R x)
  | "log", [x] => mathLog R x
  | "log", [x, b] => mathLog2 R x b
  | "log10", [x] => mathLog10 R x
  | "ln", [x] => mathLog R x
  | "ln", [x, b] => mathLog2 R x b
  | "exp", [x] => mathExp R x
  | "floor", [x] => mathFloor x
  | "ceil", [x] => mathCeil x
  | _, _ => .error (.typeError "bad argument count")

/-- The accepted argument counts of each `_FUNCS` entry, as realised by the
Python implementations (`math.log` — and therefore its alias `ln` — accepts
one or two arguments; every other entry exactly one). -/
def arityOk (n : String) (k : ℕ) : Bool :=
  if n = "log" ∨ n = "ln" then k == 1 || k == 2 else k == 1

/-- Exact rational value of the float64 `math.pi`. -/
def piQ : ℚ := 884279719003555 / 281474976710656

/-- Exact rational value of the float64 `math.e`. -/
def eQ : ℚ := 6121026514868073 / 2251799813685248

/-- Exact rational value of the float64 `math.tau` (`= 2 * math.pi`). -/
def tauQ : ℚ := 884279719003555 / 140737488355328

/-- The `_CONSTS` registry (lines 47-51). -/
def CONSTS : String → Option ℚ
  | "pi" => some piQ
  | "e" => some eQ
  | "tau" => some tauQ
  | _ => none

/-- Binary operator kinds of the Python `ast` module that the eval-mode
expression grammar can produce here. -/
inductive BinKind where
  | add | sub | mult | div | mod | pow
  | floorDiv | matMult | lshift | rshift | bitOr | bitXor | bitAnd
deriving DecidableEq

/-- `type(node.op).__name__` for a binary operator node. -/
def binKindName : BinKind → String
  | .add => "Add" | .sub => "Sub" | .mult => "Mult" | .div => "Div"
  | .mod => "Mod" | .pow => "Pow" | .floorDiv => "FloorDiv"
  | .matMult => "MatMult" | .lshift => "LShift" | .rshift => "RShift"
  | .bitOr => "BitOr" | .bitXor => "BitXor" | .bitAnd => "BitAnd"

/-- Unary operator kinds (`ast.UAdd`, `ast.USub`, `ast.Invert`). -/
inductive UnKind where
  | uadd | usub | invert
deriving DecidableEq

/-- `type(node.op).__name__` for a unary operator node. -/
def unKindName : UnKind → String
  | .uadd => "UAdd" | .usub => "USub" | .invert => "Invert"

/-- Values an `ast.Constant` node can carry in this grammar fragment:
`int` literals (arbitrary precision), `float` literals (already converted by
the tokenizer, with silent overflow to `inf`), the keyword constants
`True`/`False`/`None`, and string literals. -/
inductive PConst where
  | intv (n : ℤ)
  | floatv (f : PyFloat)
  | boolv (b : Bool)
  | strv (s : String)
  | nonev
deriving DecidableEq

/-- The fragment of the Python `ast` node types producible from the
calculator's eval-mode input.  `expression` is the `ast.Expression` wrapper
returned by `ast.parse(expr, mode="eval")`. -/
inductive PyAst where
  | expression (body : PyAst)
  | constant (v : PConst)
  | name (id : String)
  | binop (op : BinKind) (l r : PyAst)
  | unaryop (op : UnKind) (operand : PyAst)
  | call (fn : PyAst) (args : List PyAst) (hasKeywords : Bool)
  | listLit (elts : List PyAst)
  | tupleLit (elts : List PyAst)
  | compare (l : PyAst) (rest : List PyAst)
  | lambdaE (body : PyAst)
  | attribute (obj : PyAst) (attr : String)
  | subscript (obj : PyAst) (idx : PyAst)

/-- `type(node).__name__` for the node types `_eval` does not handle
(the fall-through of line 107). -/
def nodeTypeName : PyAst → String
  | .expression _ => "Expression"
  | .constant _ => "Constant"
  | .name _ => "Name"
  | .binop .. => "BinOp"
  | .unaryop .. => "UnaryOp"
  | .call .. => "Call"
  | .listLit _ => "List"
  | .tupleLit _ => "Tuple"
  | .compare .. => "Compare"
  | .lambdaE _ => "Lambda"
  | .attribute .. => "Attribute"
  | .subscript .. => "Subscript"

/-- The `_BIN_OPS` whitelist (lines 15-22): the six allowed operators and
their float implementations; every other operator kind is absent. -/
def BIN_OPS (R : RealLib) : BinKind → Option (PyFloat → PyFloat → Except PyExc PyNum)
  | .add => some (fun a b => .ok (.real (pyAdd a b)))
  | .sub => some (fun a b => .ok (.real (pySub a b)))
  | .mult => some (fun a b => .ok (.real (pyMul a b)))
  | .div => some (fun a b => (pyDiv a b).map .real)
  | .mod => some (fun a b => (pyMod a b).map .real)
  | .pow => some (pyPow R)
  | _ => none

/-- The `_UNARY_OPS` whitelist (lines 24-27). -/
def UNARY_OPS : UnKind → Option (PyFloat → PyFloat)
  | .uadd => some pyPos
  | .usub => some pyNeg
  | .invert => none

/-- `float(node.value)` for an `int` constant: exact, except that an integer
of magnitude `≥ 2^1024` raises an (uncaught) `OverflowError`. -/
def floatOfIntConst (n : ℤ) : Except PyExc PyFloat :=
  if DBL_OVERFLOW ≤ |(n : ℚ)| then .error .overflowError else .ok (.finite (n : ℚ))

mutual

/-- Shallow embedding of `_eval` (lines 60-107).  The extra fuel argument
(decremented on every recursive call) models CPython's recursion limit; it
is irrelevant on every input of the theorems below because the supplied fuel
always exceeds the expression's depth. -/
def evalNode (R : RealLib) : ℕ → PyAst → Except PyExc PyFloat
  | 0, _ => .error .recursionError
  | f+1, .expression b => evalNode R f b
  | _+1, .constant (.intv n) => floatOfIntConst n
  | _+1, .constant (.floatv x) => .ok x
  | _+1, .constant (.boolv b) => .ok (.finite (if b then 1 else 0))
  | _+1, .constant (.strv _) => .error (.calc .onlyNumbers)
  | _+1, .constant .nonev => .error (.calc .onlyNumbers)
  | _+1, .name n =>
      match CONSTS n with
      | some q => .ok (.finite q)
      | none => .error (.calc (.unknownName n))
  | f+1, .binop op l r =>
      match BIN_OPS R op with
      | none => .error (.calc (.operatorNotAllowed (binKindName op)))
      | some impl => do
          let lv ← evalNode R f l
          let rv ← evalNode R f r
          match impl lv rv with
          | .error .zeroDivisionError => .error (.calc .divisionByZero)
          | .error e => .error e
          | .ok (.real v) => .ok v
          | .ok .complexv => .error (.typeError "cannot convert complex to float")
  | f+1, .unaryop op x =>
      match UNARY_OPS op with
      | none => .error (.calc (.unaryNotAllowed (unKindName op)))
      | some g => do
          let v ← evalNode R f x
          .ok (g v)
  | f+1, .call fn args kw =>
      match fn with
      | .name n =>
          if isFunc n then
            if kw then .error (.calc .keywordArgs)
            else do
              let vals ← evalArgs R f args
              match applyFunc R n vals with
              | .error (.valueError m) => .error (.calc (.caughtValue m))
              | .error (.typeError _) => .error (.calc (.badArguments n))
              | r => r
          else .error (.calc (.unknownFunction n))
      | _ => .error (.calc .notSimpleCall)
  | _+1, .listLit _ => .error (.calc (.notSupported "List"))
  | _+1, .tupleLit _ => .error (.calc (.notSupported "Tuple"))
  | _+1, .compare _ _ => .error (.calc (.notSupported "Compare"))
  | _+1, .lambdaE _ => .error (.calc (.notSupported "Lambda"))
  | _+1, .attribute _ _ => .error (.calc (.notSupported "Attribute"))
  | _+1, .subscript _ _ => .error (.calc (.notSupported "Subscript"))

/-- The argument-list evaluation of line 99 (`[_as_number(_eval(a)) for a in
node.args]`); `_as_number` is the identity on the float results `_eval`
produces, so it introduces no extra outcome. -/
def evalArgs (R : RealLib) : ℕ → List PyAst → Except PyExc (List PyFloat)
  | 0, _ => .error .recursionError
  | _+1, [] => .ok []
  | f+1, a :: rest => do
      let v ← evalNode R f a
      let vs ← evalArgs R f rest
      .ok (v :: vs)

end

/-! ## Tokenizer

Model of the CPython tokenizer on the eval-mode fragment above: whitespace
skipping, numeric literals (decimal integers without leading zeros,
hex/octal/binary integers, floats with optional single decimal point and
`e`/`E` exponent, single underscores between digits), identifiers and the
keyword constants, one- and two-character operator tokens, and simple
(single-quoted, escape-free) string literals.  Any other character is a
`SyntaxError`. -/

/-- Lexical tokens. -/
inductive Tok where
  | num (v : PConst)
  | ident (s : String)
  | strlit (s : String)
  | kwTrue | kwFalse | kwNone | kwLambda
  | plus | minus | star | dstar | slash | dslash | percent | atSign | tilde
  | lparen | rparen | lbrack | rbrack | comma | dot | colon | semicolon
  | assign | eqeq | neq | ltTok | gtTok | leTok | geTok
  | lshTok | rshTok | amp | pipe | caret
deriving DecidableEq

/-- The single-quote character (`'`). -/
def squote : Char := Char.ofNat 39

def isWs (c : Char) : Bool := c = ' ' || c = '\t' || c = '\n' || c = '\r'

def isIdentStart (c : Char) : Bool := c.isAlpha || c = '_'

def isIdentChar (c : Char) : Bool := c.isAlphanum || c = '_'

def isHexDigit (c : Char) : Bool :=
  c.isDigit || ('a' ≤ c && c ≤ 'f') || ('A' ≤ c && c ≤ 'F')

def isOctDigit (c : Char) : Bool := '0' ≤ c && c ≤ '7'

def isBinDigit (c : Char) : Bool := c = '0' || c = '1'

def hexVal (c : Char) : ℕ :=
  if c.isDigit then c.toNat - 48
  else if 'a' ≤ c && c ≤ 'f' then c.toNat - 87
  else c.toNat - 55

/-- Collect a run of digits (by the predicate `p`) allowing a single
underscore between two digits, as the CPython tokenizer does.  Returns the
digits (underscores removed) and the unconsumed rest; a trailing or doubled
underscore is left in the rest (where it then fails the
no-identifier-character-after-a-number check). -/
def takeDigitsU (p : Char → Bool) : List Char → List Char × List Char
  | [] => ([], [])
  | c :: '_' :: c2 :: rest2 =>
    if p c then
      if p c2 then
        let (ds, r) := takeDigitsU p (c2 :: rest2)
        (c :: ds, r)
      else ([c], '_' :: c2 :: rest2)
    else ([], c :: '_' :: c2 :: rest2)
  | c :: rest =>
    if p c then
      let (ds, r) := takeDigitsU p rest
      (c :: ds, r)
    else ([], c :: rest)

/-- Digit-list (most significant first) to a natural number in base `b`. -/
def digitsToNat (b : ℕ) (v : Char → ℕ) (ds : List Char) : ℕ :=
  ds.foldl (fun a c => b * a + v c) 0

/-- Numeric value of a float literal `ip . fp E sexp`, exactly. -/
def floatLitVal (ip fp : List Char) (sexp : ℤ) : ℚ :=
  let mant : ℚ := ((digitsToNat 10 (fun c => c.toNat - 48) (ip ++ fp) : ℕ) : ℚ)
  let scale : ℤ := sexp - fp.length
  if 0 ≤ scale then mant * (((10 : ℕ) ^ scale.toNat : ℕ) : ℚ)
  else mant / (((10 : ℕ) ^ (-scale).toNat : ℕ) : ℚ)

/-- Lex one numeric literal starting at `cs` (whose head is a digit, or a
dot followed by a digit).  Mirrors the CPython tokenizer: hex/oct/bin
prefixes produce integers; a decimal run produces an `int` unless a dot or
exponent is present; a decimal `int` with a leading zero and a nonzero digit
is a `SyntaxError`; a number immediately followed by an identifier character
is a `SyntaxError`. -/
def lexNumber (cs : List Char) : Except Unit (Tok × List Char) :=
  match cs with
  | '0' :: x :: rest =>
      if x = 'x' || x = 'X' then lexRadix 16 isHexDigit hexVal rest
      else if x = 'o' || x = 'O' then lexRadix 8 isOctDigit hexVal rest
      else if x = 'b' || x = 'B' then lexRadix 2 isBinDigit hexVal rest
      else lexDecimal cs
  | _ => lexDecimal cs
where
  /-- A radix-prefixed integer literal body. -/
  lexRadix (b : ℕ) (p : Char → Bool) (v : Char → ℕ) (rest : List Char) :
      Except Unit (Tok × List Char) :=
    match takeDigitsU p rest with
    | ([], _) => .error ()
    | (ds, r) =>
        match r with
        | c :: _ => if isIdentChar c then .error () else .ok (.num (.intv (digitsToNat b v ds)), r)
        | [] => .ok (.num (.intv (digitsToNat b v ds)), [])
  /-- A decimal integer or float literal. -/
  lexDecimal (cs : List Char) : Except Unit (Tok × List Char) :=
    let (ip, r1) := takeDigitsU Char.isDigit cs
    let (dotted, fp, r2) :=
      match r1 with
      | '.' :: r1a =>
          let (fp, r2) := takeDigitsU Char.isDigit r1a
          (true, fp, r2)
      | _ => (false, [], r1)
    if ip = [] ∧ fp = [] then .error ()
    else
      let expPart : Except Unit (Option ℤ × List Char) :=
        match r2 with
        | e :: r2a =>
            if e = 'e' || e = 'E' then
              let (sgn, r2b) :=
                match r2a with
                | '+' :: r2b => ((1 : ℤ), r2b)
                | '-' :: r2b => ((-1 : ℤ), r2b)
                | _ => ((1 : ℤ), r2a)
              match takeDigitsU Char.isDigit r2b with
              | ([], _) => .error ()
              | (eds, r3) => .ok (some (sgn * (digitsToNat 10 (fun c => c.toNat - 48) eds : ℕ)), r3)
            else .ok (none, r2)
        | [] => .ok (none, [])
      match expPart with
      | .error () => .error ()
      | .ok (oexp, r3) =>
          let identAfter : Bool := match r3 with
            | c :: _ => isIdentChar c
            | [] => false
          if identAfter then .error ()
          else if dotted = false ∧ oexp = none then
            if ip.head? = some '0' ∧ ip.any (fun c => c ≠ '0') then .error ()
            else .ok (.num (.intv (digitsToNat 10 (fun c => c.toNat - 48) ip)), r3)
          else
            .ok (.num (.floatv (floatOfRat (floatLitVal ip fp (oexp.getD 0)))), r3)

/-- Collect an identifier run. -/
def takeIdent : List Char → List Char × List Char
  | [] => ([], [])
  | c :: rest =>
    if isIdentChar c then
      let (ds, r) := takeIdent rest
      (c :: ds, r)
    else ([], c :: rest)

/-- Scan a string literal body up to the closing quote `q` (escape sequences
are not modelled; no claim uses them). -/
def scanStr (q : Char) : List Char → Option (List Char × List Char)
  | [] => none
  | c :: rest =>
    if c = q then some ([], rest)
    else match scanStr q rest with
      | some (s, r) => some (c :: s, r)
      | none => none

/-- The keyword constants and `lambda`; every other identifier is a `NAME`
token (unmodelled Python keywords would only change behaviour on inputs no
claim mentions). -/
def identTok (s : String) : Tok :=
  if s = "True" then .kwTrue
  else if s = "False" then .kwFalse
  else if s = "None" then .kwNone
  else if s = "lambda" then .kwLambda
  else .ident s

/-- Whether the first character is a digit. -/
def headIsDigit : List Char → Bool
  | c :: _ => c.isDigit
  | [] => false

/-- The tokenizer: one token per step, fuel-bounded (the fuel is sized to
the input so it never runs out). -/
def lexTokens : ℕ → List Char → Except Unit (List Tok)
  | 0, _ => .error ()
  | _+1, [] => .ok []
  | f+1, c :: rest =>
    if isWs c then lexTokens f rest
    else if c.isDigit then do
      let (t, r) ← lexNumber (c :: rest)
      let ts ← lexTokens f r
      .ok (t :: ts)
    else if c = '.' ∧ headIsDigit rest then do
      let (t, r) ← lexNumber (c :: rest)
      let ts ← lexTokens f r
      .ok (t :: ts)
    else if isIdentStart c then
      let (ds, r) := takeIdent (c :: rest)
      do
        let ts ← lexTokens f r
        .ok (identTok (String.mk ds) :: ts)
    else if c = squote ∨ c = '"' then
      match scanStr c rest with
      | some (s, r) => do
          let ts ← lexTokens f r
          .ok (.strlit (String.mk s) :: ts)
      | none => .error ()
    else
      match c, rest with
      | '*', '*' :: r => do let ts ← lexTokens f r; .ok (.dstar :: ts)
      | '/', '/' :: r => do let ts ← lexTokens f r; .ok (.dslash :: ts)
      | '<', '<' :: r => do let ts ← lexTokens f r; .ok (.lshTok :: ts)
      | '>', '>' :: r => do let ts ← lexTokens f r; .ok (.rshTok :: ts)
      | '<', '=' :: r => do let ts ← lexTokens f r; .ok (.leTok :: ts)
      | '>', '=' :: r => do let ts ← lexTokens f r; .ok (.geTok :: ts)
      | '=', '=' :: r => do let ts ← lexTokens f r; .ok (.eqeq :: ts)
      | '!', '=' :: r => do let ts ← lexTokens f r; .ok (.neq :: ts)
      | '+', r => do let ts ← lexTokens f r; .ok (.plus :: ts)
      | '-', r => do let ts ← lexTokens f r; .ok (.minus :: ts)
      | '*', r => do let ts ← lexTokens f r; .ok (.star :: ts)
      | '/', r => do let ts ← lexTokens f r; .ok (.slash :: ts)
      | '%', r => do let ts ← lexTokens f r; .ok (.percent :: ts)
      | '@', r => do let ts ← lexTokens f r; .ok (.atSign :: ts)
      | '~', r => do let ts ← lexTokens f r; .ok (.tilde :: ts)
      | '(', r => do let ts ← lexTokens f r; .ok (.lparen :: ts)
      | ')', r => do let ts ← lexTokens f r; .ok (.rparen :: ts)
      | '[', r => do let ts ← lexTokens f r; .ok (.lbrack :: ts)
      | ']', r => do let ts ← lexTokens f r; .ok (.rbrack :: ts)
      | ',', r => do let ts ← lexTokens f r; .ok (.comma :: ts)
      | '.', r => do let ts ← lexTokens f r; .ok (.dot :: ts)
      | ':', r => do let ts ← lexTokens f r; .ok (.colon :: ts)
      | ';', r => do let ts ← lexTokens f r; .ok (.semicolon :: ts)
      | '=', r => do let ts ← lexTokens f r; .ok (.assign :: ts)
      | '<', r => do let ts ← lexTokens f r; .ok (.ltTok :: ts)
      | '>', r => do let ts ← lexTokens f r; .ok (.gtTok :: ts)
      | '&', r => do let ts ← lexTokens f r; .ok (.amp :: ts)
      | '|', r => do let ts ← lexTokens f r; .ok (.pipe :: ts)
      | '^', r => do let ts ← lexTokens f r; .ok (.caret :: ts)
      | _, _ => .error ()

/-! ## Parser

Model of the CPython eval-mode expression parser on the token stream,
with Python's precedence levels (low to high): lambda; comparison; `|`;
`^`; `&`; `<< >>`; `+ -`; `* / // % @`; unary `+ - ~`; `**` (whose right
operand recurses into unary, and whose left operand binds tighter than
unary: `-2**2 = -(2**2)`, `2**-2 = 2**(-2)`); trailers (calls, attribute
access, subscripts); atoms.  Every function is fuel-bounded (structural
in the fuel), and the fuel supplied by `pyParse` always suffices. -/

/-- Is this token one of the comparison operators? -/
def isCompareTok (t : Tok) : Bool :=
  t = .ltTok || t = .gtTok || t = .leTok || t = .geTok || t = .eqeq || t = .neq

mutual

/-- Top level of the expression grammar: a `lambda` or a comparison chain. -/
def parseExpr : ℕ → List Tok → Except Unit (PyAst × List Tok)
  | 0, _ => .error ()
  | f+1, .kwLambda :: rest => do
      let rest1 ← skipParams f rest
      let (body, r) ← parseExpr f rest1
      .ok (.lambdaE body, r)
  | f+1, ts => parseCompare f ts

/-- Lambda parameter list: plain names separated by commas, then `:`. -/
def skipParams : ℕ → List Tok → Except Unit (List Tok)
  | 0, _ => .error ()
  | _+1, .colon :: r => .ok r
  | f+1, .ident _ :: .comma :: r => skipParams f r
  | _+1, .ident _ :: .colon :: r => .ok r
  | _+1, _ => .error ()

/-- Comparison chains (`a < b`, `a < b < c`, ...) produce an `ast.Compare`
node (which `_eval` rejects as unsupported). -/
def parseCompare : ℕ → List Tok → Except Unit (PyAst × List Tok)
  | 0, _ => .error ()
  | f+1, ts => do
      let (l, r) ← parseBitOr f ts
      parseCompareRest f l [] r

def parseCompareRest : ℕ → PyAst → List PyAst → List Tok → Except Unit (PyAst × List Tok)
  | 0, _, _, _ => .error ()
  | f+1, l, acc, t :: r =>
      if isCompareTok t then do
        let (x, r2) ← parseBitOr f r
        parseCompareRest f l (acc ++ [x]) r2
      else .ok (match acc with | [] => l | _ => .compare l acc, t :: r)
  | _+1, l, acc, [] => .ok (match acc with | [] => l | _ => .compare l acc, [])

def parseBitOr : ℕ → List Tok → Except Unit (PyAst × List Tok)
  | 0, _ => .error ()
  | f+1, ts => do
      let (l, r) ← parseBitXor f ts
      parseBitOrRest f l r

def parseBitOrRest : ℕ → PyAst → List Tok → Except Unit (PyAst × List Tok)
  | 0, _, _ => .error ()
  | f+1, l, .pipe :: r => do
      let (x, r2) ← parseBitXor f r
      parseBitOrRest f (.binop .bitOr l x) r2
  | _+1, l, ts => .ok (l, ts)

def parseBitXor : ℕ → List Tok → Except Unit (PyAst × List Tok)
  | 0, _ => .error ()
  | f+1, ts => do
      let (l, r) ← parseBitAnd f ts
      parseBitXorRest f l r

def parseBitXorRest : ℕ → PyAst → List Tok → Except Unit (PyAst × List Tok)
  | 0, _, _ => .error ()
  | f+1, l, .caret :: r => do
      let (x, r2) ← parseBitAnd f r
      parseBitXorRest f (.binop .bitXor l x) r2
  | _+1, l, ts => .ok (l, ts)

def parseBitAnd : ℕ → List Tok → Except Unit (PyAst × List Tok)
  | 0, _ => .error ()
  | f+1, ts => do
      let (l, r) ← parseShift f ts
      parseBitAndRest f l r

def parseBitAndRest : ℕ → PyAst → List Tok → Except Unit (PyAst × List Tok)
  | 0, _, _ => .error ()
  | f+1, l, .amp :: r => do
      let (x, r2) ← parseShift f r
      parseBitAndRest f (.binop .bitAnd l x) r2
  | _+1, l, ts => .ok (l, ts)

def parseShift : ℕ → List Tok → Except Unit (PyAst × List Tok)
  | 0, _ => .error ()
  | f+1, ts => do
      let (l, r) ← parseSum f ts
      parseShiftRest f l r

def parseShiftRest : ℕ → PyAst → List Tok → Except Unit (PyAst × List Tok)
  | 0, _, _ => .error ()
  | f+1, l, .lshTok :: r => do
      let (x, r2) ← parseSum f r
      parseShiftRest f (.binop .lshift l x) r2
  | f+1, l, .rshTok :: r => do
      let (x, r2) ← parseSum f r
      parseShiftRest f (.binop .rshift l x) r2
  | _+1, l, ts => .ok (l, ts)

/-- Additive level, left-associative. -/
def parseSum : ℕ → List Tok → Except Unit (PyAst × List Tok)
  | 0, _ => .error ()
  | f+1, ts => do
      let (l, r) ← parseTerm f ts
      parseSumRest f l r

def parseSumRest : ℕ → PyAst → List Tok → Except Unit (PyAst × List Tok)
  | 0, _, _ => .error ()
  | f+1, l, .plus :: r => do
      let (x, r2) ← parseTerm f r
      parseSumRest f (.binop .add l x) r2
  | f+1, l, .minus :: r => do
      let (x, r2) ← parseTerm f r
      parseSumRest f (.binop .sub l x) r2
  | _+1, l, ts => .ok (l, ts)

/-- Multiplicative level, left-associative. -/
def parseTerm : ℕ → List Tok → Except Unit (PyAst × List Tok)
  | 0, _ => .error ()
  | f+1, ts => do
      let (l, r) ← parseFactor f ts
      parseTermRest f l r

def parseTermRest : ℕ → PyAst → List Tok → Except Unit (PyAst × List Tok)
  | 0, _, _ => .error ()
  | f+1, l, .star :: r => do
      let (x, r2) ← parseFactor f r
      parseTermRest f (.binop .mult l x) r2
  | f+1, l, .slash :: r => do
      let (x, r2) ← parseFactor f r
      parseTermRest f (.binop .div l x) r2
  | f+1, l, .dslash :: r => do
      let (x, r2) ← parseFactor f r
      parseTermRest f (.binop .floorDiv l x) r2
  | f+1, l, .percent :: r => do
      let (x, r2) ← parseFactor f r
      parseTermRest f (.binop .mod l x) r2
  | f+1, l, .atSign :: r => do
      let (x, r2) ← parseFactor f r
      parseTermRest f (.binop .matMult l x) r2
  | _+1, l, ts => .ok (l, ts)

/-- `factor: (+ | - | ~) factor | power` — a leading sign wraps the whole
power expression. -/
def parseFactor : ℕ → List Tok → Except Unit (PyAst × List Tok)
  | 0, _ => .error ()
  | f+1, .plus :: r => do
      let (x, r2) ← parseFactor f r
      .ok (.unaryop .uadd x, r2)
  | f+1, .minus :: r => do
      let (x, r2) ← parseFactor f r
      .ok (.unaryop .usub x, r2)
  | f+1, .tilde :: r => do
      let (x, r2) ← parseFactor f r
      .ok (.unaryop .invert x, r2)
  | f+1, ts => parsePower f ts

/-- `power: postfix [** factor]` — right-associative, and the exponent
recurses into `factor` so it may start with a unary sign. -/
def parsePower : ℕ → List Tok → Except Unit (PyAst × List Tok)
  | 0, _ => .error ()
  | f+1, ts => do
      let (b, r) ← parsePostfix f ts
      match r with
      | .dstar :: r2 => do
          let (e, r3) ← parseFactor f r2
          .ok (.binop .pow b e, r3)
      | _ => .ok (b, r)

/-- An atom followed by its trailers. -/
def parsePostfix : ℕ → List Tok → Except Unit (PyAst × List Tok)
  | 0, _ => .error ()
  | f+1, ts => do
      let (a, r) ← parseAtom f ts
      parseTrailers f a r

/-- Call, attribute-access and subscript trailers. -/
def parseTrailers : ℕ → PyAst → List Tok → Except Unit (PyAst × List Tok)
  | 0, _, _ => .error ()
  | f+1, a, .lparen :: r => do
      let (args, kw, r2) ← parseCallArgs f r
      parseTrailers f (.call a args kw) r2
  | f+1, a, .dot :: .ident n :: r => parseTrailers f (.attribute a n) r
  | _+1, _, .dot :: _ => .error ()
  | f+1, a, .lbrack :: r => do
      let (idx, r2) ← parseExpr f r
      match r2 with
      | .rbrack :: r3 => parseTrailers f (.subscript a idx) r3
      | _ => .error ()
  | _+1, a, ts => .ok (a, ts)

/-- Call argument list after the opening parenthesis.  A `name = expr` item
is a keyword argument (recorded only as a flag, since `_eval` rejects any
call with keywords before looking at them). -/
def parseCallArgs : ℕ → List Tok → Except Unit (List PyAst × Bool × List Tok)
  | 0, _ => .error ()
  | _+1, .rparen :: r => .ok ([], false, r)
  | f+1, ts => parseArgsGo f [] false ts

def parseArgsGo : ℕ → List PyAst → Bool → List Tok → Except Unit (List PyAst × Bool × List Tok)
  | 0, _, _, _ => .error ()
  | f+1, acc, kw, ts => do
      let (acc2, kw2, r) ←
        match ts with
        | .ident _ :: .assign :: r0 => do
            let (_, r) ← parseExpr f r0
            .ok (acc, true, r)
        | _ => do
            let (a, r) ← parseExpr f ts
            .ok (acc ++ [a], kw, r)
      match r with
      | .rparen :: r2 => .ok (acc2, kw2, r2)
      | .comma :: .rparen :: r2 => .ok (acc2, kw2, r2)
      | .comma :: r2 => parseArgsGo f acc2 kw2 r2
      | _ => .error ()

/-- Comma-separated expressions up to the closing token, with an optional
trailing comma (shared by list displays and parenthesised tuples). -/
def parseElems (close : Tok) : ℕ → List PyAst → List Tok → Except Unit (List PyAst × List Tok)
  | 0, _, _ => .error ()
  | f+1, acc, ts => do
      let (a, r) ← parseExpr f ts
      if r.head? = some close then .ok (acc ++ [a], r.tail)
      else match r with
        | .comma :: r2 =>
            if r2.head? = some close then .ok (acc ++ [a], r2.tail)
            else parseElems close f (acc ++ [a]) r2
        | _ => .error ()

/-- Atoms: literals, names, keyword constants, parenthesised expressions
and tuples, list displays. -/
def parseAtom : ℕ → List Tok → Except Unit (PyAst × List Tok)
  | 0, _ => .error ()
  | _+1, .num v :: r => .ok (.constant v, r)
  | _+1, .strlit s :: r => .ok (.constant (.strv s), r)
  | _+1, .kwTrue :: r => .ok (.constant (.boolv true), r)
  | _+1, .kwFalse :: r => .ok (.constant (.boolv false), r)
  | _+1, .kwNone :: r => .ok (.constant .nonev, r)
  | _+1, .ident n :: r => .ok (.name n, r)
  | _+1, .lparen :: .rparen :: r => .ok (.tupleLit [], r)
  | f+1, .lparen :: r => do
      let (e, r2) ← parseExpr f r
      match r2 with
      | .rparen :: r3 => .ok (e, r3)
      | .comma :: .rparen :: r3 => .ok (.tupleLit [e], r3)
      | .comma :: r3 => do
          let (es, r4) ← parseElems .rparen f [e] r3
          .ok (.tupleLit es, r4)
      | _ => .error ()
  | _+1, .lbrack :: .rbrack :: r => .ok (.listLit [], r)
  | f+1, .lbrack :: r => do
      let (es, r2) ← parseElems .rbrack f [] r
      .ok (.listLit es, r2)
  | _+1, _ => .error ()

end

/-- Fuel that always suffices for the recursive descent over a given token
list (the recursion depth is bounded by a small multiple of the token
count). -/
def parseFuel (ts : List Tok) : ℕ := 64 * (ts.length + 4)

/-- Model of `ast.parse(expr, mode="eval")` (line 112): tokenize, parse one
expression, require the whole input to be consumed, and wrap the body in an
`ast.Expression` node.  Any failure is a `SyntaxError`. -/
def pyParse (s : String) : Except Unit PyAst := do
  let toks ← lexTokens (s.length + 2) s.data
  let (a, rest) ← parseExpr (parseFuel toks) toks
  match rest with
  | [] => .ok (.expression a)
  | _ => .error ()

/-- Evaluation fuel that always exceeds the depth of the parsed tree. -/
def evalFuel (s : String) : ℕ := s.length + 32

/-- Shallow embedding of `evaluate` (lines 110-115): parse, mapping
`SyntaxError` to `CalculatorError("Invalid expression")`, then run `_eval`
on the tree. -/
def evaluate (R : RealLib) (s : String) : Except PyExc PyFloat :=
  match pyParse s with
  | .error _ => .error (.calc .invalidExpression)
  | .ok tree => evalNode R (evalFuel s) tree

/-! ## Claim theorems -/

/-- Does `ast.parse(s, mode="eval")` fail with a `SyntaxError`? -/
def parseFails (s : String) : Bool :=
  match pyParse s with
  | .ok _ => false
  | .error _ => true

/-- C1: the totality claim fails on the code (code bug): `(-1)**0.5`
produces a `complex`, whose conversion by `float(...)` raises a `TypeError`
that the calculator's `except ZeroDivisionError` clause does not catch, so
a raw `TypeError` — not a `CalculatorError` — escapes `evaluate`; likewise
`exp(1000)` raises an uncaught `OverflowError` from `math.exp`. -/
theorem c1_uncaught_exceptions_escape_evaluate (R : RealLib) :
    evaluate R "(-1)**0.5" = .error (.typeError "cannot convert complex to float") ∧
      applyFunc R "exp" [.finite 1000] =
        (if R.expOv 1000 then .error .overflowError
         else .ok (.finite (R.exp 1000))) ∧
      evaluate mathLib0 "exp(1000)" = .error .overflowError :=
  ⟨rfl, rfl, rfl⟩

/-- C2 counterexample: a list literal is valid Python eval-mode syntax, so
`ast.parse` succeeds and the failure surfaces in `_eval` as the
"Expression not supported" `CalculatorError`, not the `Syntax`-kind error
("Invalid expression"), contradicting the claim that every out-of-grammar
input fails with the `Syntax` kind. -/
theorem c2_list_literal_error_is_not_syntax_kind :
    evaluate mathLib0 "[1,2]" = .error (.calc (.notSupported "List")) ∧
      evaluate mathLib0 "[1,2]" ≠ .error (.calc .invalidExpression) := by
  refine ⟨rfl, ?_⟩
  decide

/-- C2 (amended): input that Python's eval-mode parser rejects (assignment,
statement separators, or any tokenization failure) yields the `Syntax`-kind
error "Invalid expression"; out-of-grammar constructs that parse as Python
expressions (list literals, comparisons, lambdas, attribute access, string
literals) also fail with a `CalculatorError`, but of the
unsupported-expression / only-numbers kinds; in all cases no value is
returned. -/
theorem c2_injection_rejected_amended (R : RealLib) (s : String)
    (hs : parseFails s = true) :
    evaluate R s = .error (.calc .invalidExpression) ∧
    evaluate R "x=1" = .error (.calc .invalidExpression) ∧
    evaluate R "1;2" = .error (.calc .invalidExpression) ∧
    evaluate R "[1,2]" = .error (.calc (.notSupported "List")) ∧
    evaluate R "1<2" = .error (.calc (.notSupported "Compare")) ∧
    evaluate R "lambda: 1" = .error (.calc (.notSupported "Lambda")) ∧
    evaluate R "a.b" = .error (.calc (.notSupported "Attribute")) ∧
    evaluate R "\"s\"" = .error (.calc .onlyNumbers) := by
  refine ⟨?_, rfl, rfl, rfl, rfl, rfl, rfl, rfl⟩
  cases h : pyParse s with
  | error e => simp [evaluate, h]
  | ok t => simp [parseFails, h] at hs

/-- C2 witness: the amended theorem applied at a lexically invalid input. -/
theorem c2_injection_rejected_amended_w :
    evaluate mathLib0 "$" = .error (.calc .invalidExpression) :=
  (c2_injection_rejected_amended mathLib0 "$" (by decide)).1

/-- C3 counterexample: `evaluate("2**-2")` is `0.25` (`2**(-2) = 1/4`), not
`0.5` as the claim states. -/
theorem c3_pow_neg_exponent_is_quarter_not_half :
    evaluate mathLib0 "2**-2" = .ok (.finite (1/4)) ∧
      evaluate mathLib0 "2**-2" ≠ .ok (.finite (1/2)) := by
  refine ⟨rfl, ?_⟩
  decide

/-- C3 (amended): precedence and associativity as claimed, except that
`evaluate("2**-2") = 0.25` (the claim's arithmetic slip: `2**(-2)` is `1/4`,
not `0.5`; the parse `2**(-2)` itself is as described). -/
theorem c3_precedence_associativity_amended (R : RealLib) :
    evaluate R "2+3*4" = .ok (.finite 14) ∧
    evaluate R "(1+2)**3" = .ok (.finite 27) ∧
    evaluate R "-2**2" = .ok (.finite (-4)) ∧
    evaluate R "2**-2" = .ok (.finite (1/4)) ∧
    evaluate R "10%3" = .ok (.finite 1) :=
  ⟨rfl, rfl, rfl, rfl, rfl⟩

/-- C4: the log-domain claim fails on the code for base 1 (code bug):
`math.log(8, 1)` divides by `log(1) = 0.0` and raises `ZeroDivisionError`,
which the call branch (catching only `ValueError`/`TypeError`) does not
catch, so a raw `ZeroDivisionError` — not a `DomainError`-style
`CalculatorError` — escapes `evaluate("log(8,1)")`.  The `x ≤ 0` and
`base ≤ 0` cases do fail with the caught `ValueError` ("math domain error")
as claimed. -/
theorem c4_log_base_one_uncaught_zerodivision (R : RealLib) :
    evaluate R "log(8,1)" = .error .zeroDivisionError ∧
    evaluate R "log(0)" = .error (.calc (.caughtValue "math domain error")) ∧
    evaluate R "log(-1)" = .error (.calc (.caughtValue "math domain error")) ∧
    evaluate R "log(8,-2)" = .error (.calc (.caughtValue "math domain error")) :=
  ⟨rfl, rfl, rfl, rfl⟩

/-- C5: the no-silent-NaN claim fails on the code (code bug): the literal
`1e400` overflows to `inf` during parsing, and `inf - inf` is `nan`, which
`evaluate("1e400-1e400")` returns as a success, with no error flagged. -/
theorem c5_inf_minus_inf_returns_nan (R : RealLib) :
    evaluate R "1e400-1e400" = .ok .nan :=
  rfl

/-- C6 counterexample: a hexadecimal literal is accepted by Python's
tokenizer (and an underscore-separated one likewise), evaluating to its
numeric value instead of failing with a `Syntax` error as claimed. -/
theorem c6_hex_underscore_literals_accepted :
    evaluate mathLib0 "0x10" = .ok (.finite 16) ∧
      evaluate mathLib0 "0x10" ≠ .error (.calc .invalidExpression) := by
  refine ⟨rfl, ?_⟩
  decide

/-- C6 (amended): decimal literals (digits, optional single decimal point,
optional `e`/`E` exponent with optional sign) are accepted as claimed, but
hexadecimal literals and underscore digit separators are ALSO accepted
(Python's lexer handles them), evaluating to their numeric values. -/
theorem c6_numeric_literal_lexing_amended (R : RealLib) :
    evaluate R "12.5" = .ok (.finite (25/2)) ∧
    evaluate R "2e3" = .ok (.finite 2000) ∧
    evaluate R "2.5E-1" = .ok (.finite (1/4)) ∧
    evaluate R "0x10" = .ok (.finite 16) ∧
    evaluate R "1_000" = .ok (.finite 1000) :=
  ⟨rfl, rfl, rfl, rfl, rfl⟩

/-- C7: division and modulo by exactly zero fail with the `DivisionByZero`
kind: `evaluate("1/0")` and `evaluate("1%0")` both yield the caught
`CalculatorError("Division by zero")`, and in general any `Div` or `Mod`
node whose operands evaluate, with the right operand exactly `0`, yields
`DivisionByZero` rather than an infinity or `nan`. -/
theorem c7_div_mod_by_zero (R : RealLib) (fuel : ℕ) (l r : PyAst) (lv : PyFloat)
    (h1 : evalNode R fuel l = .ok lv)
    (h2 : evalNode R fuel r = .ok (.finite 0)) :
    (evalNode R (fuel+1) (.binop .div l r) = .error (.calc .divisionByZero) ∧
     evalNode R (fuel+1) (.binop .mod l r) = .error (.calc .divisionByZero)) ∧
    evaluate R "1/0" = .error (.calc .divisionByZero) ∧
    evaluate R "1%0" = .error (.calc .divisionByZero) := by
  refine ⟨⟨?_, ?_⟩, rfl, rfl⟩
  · simp [evalNode, BIN_OPS, h1, h2, pyDiv, bind, Except.bind, Except.map]
  · simp [evalNode, BIN_OPS, h1, h2, pyMod, bind, Except.bind, Except.map]

/-- C7 witness: the general statement applied to `1/0` at the node level. -/
theorem c7_div_mod_by_zero_w :
    evalNode mathLib0 2 (.binop .div (.constant (.intv 1)) (.constant (.intv 0)))
      = .error (.calc .divisionByZero) :=
  (c7_div_mod_by_zero mathLib0 1 (.constant (.intv 1)) (.constant (.intv 0))
    (.finite 1) (by decide) (by decide)).1.1

/-- C8: `evaluate("pi")` returns the float64 value of `π` (≈ 3.14159265);
an identifier not among the constants fails with `UnknownName`; a call
target not among the whitelisted functions fails with `UnknownFunction`
(before its arguments are even evaluated); no unknown name is silently
coerced. -/
theorem c8_name_function_resolution (R : RealLib) (n m : String)
    (args : List PyAst) (kw : Bool) (fuel : ℕ)
    (h1 : CONSTS n = none) (h2 : isFunc m = false) :
    evaluate R "pi" = .ok (.finite piQ) ∧
    ((314159265 : ℚ) / 100000000 ≤ piQ ∧ piQ < (314159266 : ℚ) / 100000000) ∧
    evaluate R "foo" = .error (.calc (.unknownName "foo")) ∧
    evaluate R "foo()" = .error (.calc (.unknownFunction "foo")) ∧
    evalNode R (fuel+1) (.name n) = .error (.calc (.unknownName n)) ∧
    evalNode R (fuel+1) (.call (.name m) args kw)
      = .error (.calc (.unknownFunction m)) := by
  refine ⟨rfl, by decide, rfl, rfl, ?_, ?_⟩
  · simp [evalNode, h1]
  · simp [evalNode, h2]

/-- C8 witness: discharging the lookup-failure hypotheses at `"foo"`. -/
theorem c8_name_function_resolution_w :
    evalNode mathLib0 1 (.name "foo") = .error (.calc (.unknownName "foo")) :=
  (c8_name_function_resolution mathLib0 "foo" "foo" [] false 0 (by decide)
    (by decide)).2.2.2.2.1

/-- Helper for C9: applying a `_FUNCS` implementation to an argument list
whose length it does not accept raises `TypeError` (caught by the call
branch as `BadArguments`). -/
theorem applyFunc_bad_arity (R : RealLib) (n : String) (vals : List PyFloat)
    (h1 : isFunc n = true) (h2 : arityOk n vals.length = false) :
    applyFunc R n vals = .error (.typeError "bad argument count") := by
  have hmem : n ∈ FUNC_NAMES := by
    simpa [isFunc] using h1
  fin_cases hmem <;>
    rcases vals with _ | ⟨a, _ | ⟨b, _ | ⟨c, t⟩⟩⟩ <;>
    first
      | rfl
      | (exfalso; simp [arityOk] at h2)

/-- C9: arity checking: `evaluate("sqrt(1,2)")` fails with `BadArguments`;
`evaluate("log(8)")` succeeds with the natural logarithm of 8 (the value
the library's `ln` computes at 8); `evaluate("log(8,2,1)")` fails with
`BadArguments`; and in general a call to a whitelisted function with an
argument count its implementation does not accept fails with
`BadArguments`. -/
theorem c9_arity_checking (R : RealLib) (n : String) (args : List PyAst)
    (vals : List PyFloat) (fuel : ℕ)
    (h1 : isFunc n = true) (h2 : arityOk n vals.length = false)
    (h3 : evalArgs R fuel args = .ok vals) :
    evalNode R (fuel+1) (.call (.name n) args false)
      = .error (.calc (.badArguments n)) ∧
    evaluate R "sqrt(1,2)" = .error (.calc (.badArguments "sqrt")) ∧
    evaluate R "log(8)" = .ok (.finite (R.ln 8)) ∧
    evaluate R "log(8,2,1)" = .error (.calc (.badArguments "log")) := by
  refine ⟨?_, rfl, rfl, rfl⟩
  simp [evalNode, h1, h3, applyFunc_bad_arity R n vals h1 h2, bind, Except.bind]

/-- C9 witness: the general statement applied to `sqrt(1,2)`. -/
theorem c9_arity_checking_w :
    evalNode mathLib0 4 (.call (.name "sqrt")
        [.constant (.intv 1), .constant (.intv 2)] false)
      = .error (.calc (.badArguments "sqrt")) :=
  (c9_arity_checking mathLib0 "sqrt"
    [.constant (.intv 1), .constant (.intv 2)] [.finite 1, .finite 2] 3
    (by decide) (by decide) (by decide)).1

/-- C10: Boolean literals are accepted as numbers at the public interface:
`evaluate("True")` returns `1.0` and `evaluate("False")` returns `0.0`,
because the numeric-constant check of `_eval` admits `bool` values (`bool`
being a subtype of `int`) rather than rejecting them as out-of-grammar. -/
theorem c10_bool_literals_accepted (R : RealLib) :
    evaluate R "True" = .ok (.finite 1) ∧ evaluate R "False" = .ok (.finite 0) :=
  ⟨rfl, rfl⟩

end Calculator
